import Mathlib

/-!
Verification of the session-negotiation core of the fastify-session plugin
(lib/fastifySession.js together with the cookie-secrets store).

The JavaScript source is embedded shallowly:

* pure helpers (`shouldSaveSession`, `isSessionModified`, the secret-key
  store mutations) become Lean functions translated branch by branch;
* the asynchronous hooks (`handleSession` for the preValidation phase,
  `saveSession` for the onSend phase, `destroySession`) become functions
  from the request data plus the store's responses (the values the store
  would pass to its callbacks) to an outcome together with a trace of the
  externally observable events: store calls (with the arity variant used),
  response-cookie writes, and every inspection of a store method's
  declared parameter count (reading `fn.length` in the source);
* the external `cookie-signature` dependency and the parts of the
  repository that are not in the provided sources (the `Session` class and
  the multi-secret verification loop) are modelled from the specification,
  each marked `Modelled from the spec:` in its doc comment.
-/

/-- A JavaScript error value as the hooks observe it: only its `code`
property is ever inspected (`err.code === 'ENOENT'`). -/
structure JsError where
  code : Option String
deriving DecidableEq, Repr

/-- Externally observable events of one hook execution: store calls
(recording which arity variant was used and the id argument),
response-cookie writes, and inspections of a store method's declared
parameter count (reading `fn.length` in the source). -/
inductive Ev where
  | inspect (method : String)
  | storeGet (withRequest : Bool) (id : String)
  | storeDestroy (withRequest : Bool) (id : Option String)
  | storeSet (withRequest : Bool) (id : Option String)
  | setCookie (name : String) (value : String)
deriving DecidableEq, Repr

/-- The declared parameter counts (`fn.length`) of the configured store's
methods, as the source inspects them. -/
structure StoreSig where
  getArity : Nat
  setArity : Nat
  destroyArity : Nat
deriving DecidableEq, Repr

/-! ## Signed identifiers

Modelled from the spec: SignedIdentifier. The source delegates signing to
the external cookie-signature package: `sign(val, secret)` appends a dot
and a keyed MAC of `val` (whose base64 output never contains a dot), and
`unsign(val, secret)` takes the part of `val` before its last dot, re-signs
it with `secret`, and returns that prefix exactly when the result matches
`val`, the sentinel `false` (here `none`) otherwise. The MAC itself is
cryptographic and is replaced by a concrete keyed stand-in; no theorem
below relies on its collision behaviour, only on the fact that its output
contains no dot. -/

/-- Keyed MAC stand-in: tags the value with the secret and rewrites any dot
so that the output never contains one, as the base64 MAC of the source's
dependency never does. -/
def escapeDots : List Char → List Char
  | [] => []
  | c :: cs => (if c = '.' then ',' else c) :: escapeDots cs

/-- Character-list form of a signed value: the raw value, a dot separator,
then the dot-free MAC of the value under the secret. -/
def signData (val secret : List Char) : List Char :=
  val ++ '.' :: escapeDots (secret ++ ';' :: val)

/-- Modelled from the spec: `cookieSignature.sign` of the external
cookie-signature dependency. -/
def sign (val secret : String) : String :=
  String.mk (signData val.data secret.data)

/-- Split a character list at its last dot: returns the parts before and
after that dot, or `none` when the list has no dot. -/
def breakAtLastDot : List Char → Option (List Char × List Char)
  | [] => none
  | c :: cs =>
    match breakAtLastDot cs with
    | some (pre, post) => some (c :: pre, post)
    | none => if c = '.' then some ([], cs) else none

/-- Modelled from the spec: `cookieSignature.unsign` of the external
cookie-signature dependency. Recovers the raw id exactly when the
signature matches the given secret; `none` is the sentinel for an invalid
signature. -/
def unsign (input secret : String) : Option String :=
  match breakAtLastDot input.data with
  | none => none
  | some (pre, _) =>
    if signData pre secret.data = input.data then some (String.mk pre) else none

/-- Modelled from the spec: the multi-secret verification loop (not under
the provided sources; `handleSession` there receives a single secret).
Verification is attempted against each secret of the key store in store
order, position 0 (the signing secret) first, stopping at the first
success. -/
def verifyWithSecrets (value : String) : List String → Option String
  | [] => none
  | s :: rest =>
    match unsign value s with
    | some raw => some raw
    | none => verifyWithSecrets value rest

/-! ## The cookie-secrets store (CookieSecretsStore) -/

/-- The ordered list of secrets of a CookieSecretsStore: position 0 is the
signing secret, later positions are unsigning secrets. -/
structure CookieSecretsStore where
  store : List String
deriving DecidableEq, Repr

/-- JavaScript `Array.prototype.lastIndexOf`, in `Option Nat` form:
`some i` for the greatest index holding `key`, `none` for -1. -/
def lastIndexOfAux (key : String) : List String → Option Nat
  | [] => none
  | x :: xs =>
    match lastIndexOfAux key xs with
    | some i => some (i + 1)
    | none => if x = key then some 0 else none

/-- `addSigning(key)`: rejects a key shorter than 32 characters (the
source's `typeof` check is satisfied statically here), otherwise splices
the key in at position 0, demoting the previous head to position 1. -/
def CookieSecretsStore.addSigning (s : CookieSecretsStore) (key : String) :
    Except String CookieSecretsStore :=
  if key.length < 32 then
    Except.error "The secret must be a string with length 32 or greater"
  else
    Except.ok ⟨key :: s.store⟩

/-- `addUnsigning(key)`: splices the key in at position 1, with no length
check; on an empty store JavaScript's splice clamps the start index and
appends. -/
def CookieSecretsStore.addUnsigning (s : CookieSecretsStore) (key : String) :
    CookieSecretsStore :=
  match s.store with
  | [] => ⟨[key]⟩
  | x :: xs => ⟨x :: key :: xs⟩

/-- `contains(key)`: `lastIndexOf(key) !== -1`. -/
def CookieSecretsStore.contains (s : CookieSecretsStore) (key : String) : Bool :=
  (lastIndexOfAux key s.store).isSome

/-- `isSigning(key)`: `indexOf(key) === 0`, that is, the store is nonempty
and its head is `key`. -/
def CookieSecretsStore.isSigning (s : CookieSecretsStore) (key : String) : Bool :=
  match s.store with
  | [] => false
  | x :: _ => x = key

/-- `remove(key)`: computes `lastIndexOf(key)`; index 0 throws, a positive
index is spliced out, and a missing key is a silent no-op. -/
def CookieSecretsStore.remove (s : CookieSecretsStore) (key : String) :
    Except String CookieSecretsStore :=
  match lastIndexOfAux key s.store with
  | some 0 => Except.error "Unable to remove the signing key. Add another one first"
  | some (i + 1) => Except.ok ⟨s.store.eraseIdx (i + 1)⟩
  | none => Except.ok s

/-! ## The resolve phase (preValidation hook, `handleSession`) -/

/-- A session payload as returned by the store's `get`. Modelled from the
spec: the `Session` class is not under the provided sources; the only
property the resolve phase reads is `isExpired()`, and a session is
expired when `now` is at or past its `expires` timestamp (a session
without an expiry never expires). -/
structure LoadedSession where
  expires : Option Int
deriving DecidableEq, Repr

/-- Modelled from the spec: `Session.isExpired`, true when the expiry
timestamp exists and is at or before `now`. -/
def LoadedSession.isExpired (s : LoadedSession) (now : Int) : Bool :=
  match s.expires with
  | none => false
  | some e => e ≤ now

/-- The outcome the store's `get` callback receives for this request:
an error object, a success with no session (`null`), or a session. -/
inductive GetResult where
  | error (e : JsError)
  | notFound
  | found (s : LoadedSession)
deriving DecidableEq, Repr

/-- The responses the configured store would give to the calls of one
resolve-phase execution. -/
structure StoreBehavior where
  getResult : GetResult
  destroyResult : Option JsError
deriving DecidableEq, Repr

/-- The parts of the request the resolve phase reads: its url and the
value of the session cookie (`request.cookies[options.cookieName]`),
`none` when that cookie is absent. -/
structure Request where
  url : String
  cookie : Option String
deriving DecidableEq, Repr

/-- How the resolve phase leaves the request: untouched (path out of
scope), with a fresh session attached, with the loaded session attached,
or failed with the error passed to `done`. -/
inductive ResolveOutcome where
  | skipped
  | fresh
  | attached (s : LoadedSession)
  | failed (e : JsError)
deriving DecidableEq, Repr

/-- JavaScript truthiness of an optional string: absent and empty are
falsy. -/
def truthyStr : Option String → Bool
  | none => false
  | some s => s ≠ ""

/-- The effective cookie path, `cookieOpts.path || '/'`: an absent or
empty configured path falls back to the root path. -/
def effectivePath : Option String → String
  | none => "/"
  | some s => if s = "" then "/" else s

/-- Whether `url` starts with `path` (`url.indexOf(path) === 0`). -/
def listStartsWith : List Char → List Char → Bool
  | _, [] => true
  | [], _ :: _ => false
  | u :: us, p :: ps => u = p && listStartsWith us ps

/-- The two flags of the preValidation closure, computed once at setup. -/
structure PreValidationHook where
  storeImplementsRequestAtGet : Bool
  implementsRequestAtDestroy : Bool
deriving DecidableEq, Repr

/-- Setup of the preValidation hook: inspects the declared parameter
counts of the store's `get` and `destroy` once and fixes the two arity
flags for every later call. -/
def preValidationSetup (sig : StoreSig) : PreValidationHook × List Ev :=
  (⟨decide (3 ≤ sig.getArity), decide (3 ≤ sig.destroyArity)⟩,
    [Ev.inspect "get", Ev.inspect "destroy"])

/-- The behaviour of the `destroyCallback` built by `getDestroyCallback`:
an error is passed through to `done`, success creates a new session. -/
def getDestroyCallback (err : Option JsError) : ResolveOutcome :=
  match err with
  | some e => ResolveOutcome.failed e
  | none => ResolveOutcome.fresh

/-- The resolve phase, `handleSession`, for one request: skip when the url
is outside the cookie path scope; with a falsy cookie create a fresh
session; otherwise unsign the cookie and, on success, call the store's
`get` (with the arity fixed at setup) and dispatch on its callback values:
`ENOENT` or a null session create a fresh session, another error fails the
request, an expired session is destroyed in the store (the signed cookie
value is passed as the id there) before a fresh session replaces it, and a
live session is attached. -/
def handleSession (storeImplementsRequestAtGet implementsRequestAtDestroy : Bool)
    (cookiePath : Option String) (secret : String) (request : Request)
    (store : StoreBehavior) (now : Int) : ResolveOutcome × List Ev :=
  if ¬ listStartsWith request.url.data (effectivePath cookiePath).data then
    (ResolveOutcome.skipped, [])
  else
    match request.cookie with
    | none => (ResolveOutcome.fresh, [])
    | some sessionId =>
      if sessionId = "" then (ResolveOutcome.fresh, [])
      else
        match unsign sessionId secret with
        | none => (ResolveOutcome.fresh, [])
        | some decryptedSessionId =>
          match store.getResult with
          | GetResult.error e =>
            if e.code = some "ENOENT" then
              (ResolveOutcome.fresh,
                [Ev.storeGet storeImplementsRequestAtGet decryptedSessionId])
            else
              (ResolveOutcome.failed e,
                [Ev.storeGet storeImplementsRequestAtGet decryptedSessionId])
          | GetResult.notFound =>
            (ResolveOutcome.fresh,
              [Ev.storeGet storeImplementsRequestAtGet decryptedSessionId])
          | GetResult.found s =>
            if s.isExpired now then
              (getDestroyCallback store.destroyResult,
                [Ev.storeGet storeImplementsRequestAtGet decryptedSessionId,
                  Ev.storeDestroy implementsRequestAtDestroy (some sessionId)])
            else
              (ResolveOutcome.attached s,
                [Ev.storeGet storeImplementsRequestAtGet decryptedSessionId])

/-- Setup followed by one resolve-phase call, with the combined event
trace of the call itself (the setup inspections are reported separately by
`preValidationSetup`). -/
def resolvePhase (sig : StoreSig) (cookiePath : Option String) (secret : String)
    (request : Request) (store : StoreBehavior) (now : Int) : ResolveOutcome × List Ev :=
  let hook := (preValidationSetup sig).1
  handleSession hook.storeImplementsRequestAtGet hook.implementsRequestAtDestroy
    cookiePath secret request store now

/-! ## The persist phase (onSend hook, `saveSession`) -/

/-- The request session object as the persist phase sees it: its
`sessionId` (absent or possibly empty, both falsy), its signed id, and the
list of its own enumerable object keys, which `isSessionModified`
counts. -/
structure SessionObj where
  sessionId : Option String
  encryptedSessionId : String
  objectKeys : List String
deriving DecidableEq, Repr

/-- Modelled from the spec: the pristine session object created by the
negotiator carries exactly its four bookkeeping keys (the `Session` class
is not under the provided sources; its shape is fixed by the spec's
statement that the initial shape always carries exactly the negotiator's
own bookkeeping keys, matched with the count 4 used by
`isSessionModified`). -/
def initialSessionKeys : List String :=
  ["sessionId", "encryptedSessionId", "cookie", "expires"]

/-- `isSessionModified(session)`: `Object.keys(session).length !== 4`. -/
def isSessionModified (sessionKeys : List String) : Bool :=
  sessionKeys.length ≠ 4

/-- The configured `cookie.secure` value, as the strict comparison
`cookieOpts.secure !== true` sees it: either exactly the boolean `true`,
or any other value. -/
inductive SecureSetting where
  | strictTrue
  | other
deriving DecidableEq, Repr

/-- The request's connection object, when present; `encrypted` may be
absent or a boolean, and only exactly `true` counts. -/
structure Connection where
  encrypted : Option Bool
deriving DecidableEq, Repr

/-- The source's `connection && connection.encrypted === true`. -/
def connectionIsEncrypted : Option Connection → Bool
  | none => false
  | some c => c.encrypted = some true

/-- The parts of the request the persist phase reads: the attached session
(absent after destruction or when resolution was skipped), the connection,
and the `x-forwarded-proto` header. -/
structure PersistRequest where
  session : Option SessionObj
  connection : Option Connection
  xForwardedProto : Option String
deriving DecidableEq, Repr

/-- `shouldSaveSession(request, cookieOpts, saveUninitialized)`, branch by
branch: skip an unmodified session when `saveUninitialized` is off; save
when `secure` is not strictly true; otherwise save only on an encrypted
connection or an exact `x-forwarded-proto: https` header. -/
def shouldSaveSession (session : SessionObj) (connection : Option Connection)
    (forwardedProto : Option String) (cookieSecure : SecureSetting)
    (saveUninitialized : Bool) : Bool :=
  if !saveUninitialized && !isSessionModified session.objectKeys then false
  else if cookieSecure ≠ SecureSetting.strictTrue then true
  else if connectionIsEncrypted connection then true
  else decide (forwardedProto = some "https")

/-- What one persist-phase execution did: the argument passed to `done`
and the trace of store calls and cookie writes. -/
structure PersistOutcome where
  doneArg : Option JsError
  events : List Ev
deriving DecidableEq, Repr

/-- Setup of the onSend hook: inspects the declared parameter count of the
store's `set` once and fixes the arity flag for every later call. -/
def onSendSetup (sig : StoreSig) : Bool × List Ev :=
  (decide (4 ≤ sig.setArity), [Ev.inspect "set"])

/-- The persist phase, `saveSession`, for one request: nothing happens
when no session is attached, its `sessionId` is falsy, or
`shouldSaveSession` declines; otherwise the store's `set` is called (with
the arity fixed at setup) and, only when it succeeds, the response cookie
is set to the session's signed id before `done` is called. -/
def saveSession (storeImplementsRequestAtSet : Bool) (cookieName : String)
    (cookieSecure : SecureSetting) (saveUninitialized : Bool)
    (request : PersistRequest) (setResult : Option JsError) : PersistOutcome :=
  match request.session with
  | none => ⟨none, []⟩
  | some session =>
    if !truthyStr session.sessionId then ⟨none, []⟩
    else if !shouldSaveSession session request.connection request.xForwardedProto
        cookieSecure saveUninitialized then ⟨none, []⟩
    else
      match setResult with
      | some e => ⟨some e, [Ev.storeSet storeImplementsRequestAtSet session.sessionId]⟩
      | none =>
        ⟨none, [Ev.storeSet storeImplementsRequestAtSet session.sessionId,
          Ev.setCookie cookieName session.encryptedSessionId]⟩

/-- Setup followed by one persist-phase call. -/
def persistPhase (sig : StoreSig) (cookieName : String)
    (cookieSecure : SecureSetting) (saveUninitialized : Bool)
    (request : PersistRequest) (setResult : Option JsError) : PersistOutcome :=
  saveSession (onSendSetup sig).1 cookieName cookieSecure saveUninitialized
    request setResult

/-! ## The destroy operation (`destroySession`) -/

/-- What one `destroySession` call did: the session attached to the
request afterwards, the argument passed to `done`, and the trace. -/
structure DestroyOutcome where
  sessionAfter : Option SessionObj
  doneArg : Option JsError
  events : List Ev
deriving DecidableEq, Repr

/-- The `destroySession` request decoration: on each call it reads the
declared parameter count of the store's `destroy` (an inspection event per
call), calls `destroy` with the session's id in the matching arity, and in
its callback unconditionally sets `request.session` to null before passing
the store's error, if any, to `done`. -/
def destroySession (sig : StoreSig) (session : SessionObj)
    (destroyResult : Option JsError) : DestroyOutcome :=
  let implementsRequestAtDestroy := decide (3 ≤ sig.destroyArity)
  { sessionAfter := none
    doneArg := destroyResult
    events := [Ev.inspect "destroy",
      Ev.storeDestroy implementsRequestAtDestroy session.sessionId] }

/-! ## Helper lemmas about the signing model -/

theorem breakAtLastDot_append_dot (xs ys : List Char) (h : breakAtLastDot ys = none) :
    breakAtLastDot (xs ++ '.' :: ys) = some (xs, ys) := by
  induction xs with
  | nil => simp [breakAtLastDot, h]
  | cons c cs ih => simp [breakAtLastDot, ih]

theorem breakAtLastDot_escapeDots (cs : List Char) :
    breakAtLastDot (escapeDots cs) = none := by
  induction cs with
  | nil => rfl
  | cons c cs ih =>
    by_cases hc : c = '.'
    · simp [escapeDots, breakAtLastDot, hc, ih]
    · simp [escapeDots, breakAtLastDot, hc, ih]

theorem breakAtLastDot_signData (v s : List Char) :
    breakAtLastDot (signData v s) = some (v, escapeDots (s ++ ';' :: v)) :=
  breakAtLastDot_append_dot v _ (breakAtLastDot_escapeDots _)

theorem unsign_sign_self (raw secret : String) :
    unsign (sign raw secret) secret = some raw := by
  show unsign (String.mk (signData raw.data secret.data)) secret = some raw
  unfold unsign
  rw [show (String.mk (signData raw.data secret.data)).data
      = signData raw.data secret.data from rfl]
  rw [breakAtLastDot_signData]
  simp

theorem unsign_sign_eq_some (raw old s x : String)
    (h : unsign (sign raw old) s = some x) : x = raw := by
  unfold unsign at h
  rw [show (sign raw old).data = signData raw.data old.data from rfl] at h
  rw [breakAtLastDot_signData] at h
  by_cases hc : signData raw.data s.data = signData raw.data old.data
  · simp [hc] at h
    exact h.symm
  · simp [hc] at h

theorem verifyWithSecrets_sign_of_mem (raw old : String) (secrets : List String)
    (hmem : old ∈ secrets) : verifyWithSecrets (sign raw old) secrets = some raw := by
  induction secrets with
  | nil => cases hmem
  | cons s rest ih =>
    unfold verifyWithSecrets
    cases hu : unsign (sign raw old) s with
    | some x =>
      simp [unsign_sign_eq_some raw old s x hu]
    | none =>
      simp only []
      rcases List.mem_cons.mp hmem with h | h
      · subst h
        rw [unsign_sign_self] at hu
        cases hu
      · exact ih h

/-! ## Helper lemmas about the cookie-secrets store -/

theorem lastIndexOfAux_eq_none_iff (key : String) (l : List String) :
    lastIndexOfAux key l = none ↔ key ∉ l := by
  induction l with
  | nil => simp [lastIndexOfAux]
  | cons x xs ih =>
    unfold lastIndexOfAux
    cases h : lastIndexOfAux key xs with
    | some i =>
      simp only [h]
      constructor
      · intro hc
        cases hc
      · intro hmem
        exfalso
        exact hmem (List.mem_cons_of_mem x ((ih.not_left).mp (by simp [h])))
    | none =>
      by_cases hx : x = key
      · simp [hx]
      · simp only [hx, if_false]
        rw [ih] at h
        simp [List.mem_cons, h]
        intro he
        exact hx he.symm

theorem lastIndexOfAux_lt_length (key : String) (l : List String) (i : Nat)
    (h : lastIndexOfAux key l = some i) : i < l.length := by
  induction l generalizing i with
  | nil => cases h
  | cons x xs ih =>
    unfold lastIndexOfAux at h
    cases hx : lastIndexOfAux key xs with
    | some j =>
      rw [hx] at h
      cases h
      exact Nat.succ_lt_succ (ih j hx)
    | none =>
      rw [hx] at h
      by_cases he : x = key
      · simp [he] at h
        subst h
        exact Nat.succ_pos _
      · simp [he] at h

theorem length_eraseIdx_add_one {α : Type} (l : List α) (i : Nat)
    (h : i < l.length) : (l.eraseIdx i).length + 1 = l.length := by
  induction l generalizing i with
  | nil => cases h
  | cons x xs ih =>
    cases i with
    | zero => rfl
    | succ j =>
      have hj : j < xs.length := Nat.lt_of_succ_lt_succ h
      simp only [List.eraseIdx, List.length_cons]
      rw [ih j hj]

theorem handleSession_events (gw dw : Bool) (cookiePath : Option String)
    (secret : String) (request : Request) (store : StoreBehavior) (now : Int) :
    (handleSession gw dw cookiePath secret request store now).2 = []
    ∨ (∃ raw, (handleSession gw dw cookiePath secret request store now).2
        = [Ev.storeGet gw raw])
    ∨ (∃ raw cv, (handleSession gw dw cookiePath secret request store now).2
        = [Ev.storeGet gw raw, Ev.storeDestroy dw (some cv)]) := by
  unfold handleSession
  split
  · exact Or.inl rfl
  · split
    · exact Or.inl rfl
    · split
      · exact Or.inl rfl
      · split
        · exact Or.inl rfl
        · split
          · split
            · exact Or.inr (Or.inl ⟨_, rfl⟩)
            · exact Or.inr (Or.inl ⟨_, rfl⟩)
          · exact Or.inr (Or.inl ⟨_, rfl⟩)
          · split
            · exact Or.inr (Or.inr ⟨_, _, rfl⟩)
            · exact Or.inr (Or.inl ⟨_, rfl⟩)

/-! ## Claims -/

/-- C1: verification of a cookie value against the secret-key store tries
the signing secret at position 0 first (a success there is taken and the
remaining secrets are not consulted), on failure moves on to the unsigning
secrets in store order, and consequently a cookie signed under a previous
signing secret that `addSigning` has demoted to an unsigning position
still verifies, recovering the original raw id. -/
theorem C1_verification_order :
    (∀ value s rest raw, unsign value s = some raw →
      verifyWithSecrets value (s :: rest) = some raw)
    ∧ (∀ value s rest, unsign value s = none →
      verifyWithSecrets value (s :: rest) = verifyWithSecrets value rest)
    ∧ (∀ raw old tail newKey st,
      CookieSecretsStore.addSigning ⟨old :: tail⟩ newKey = Except.ok st →
      st.store = newKey :: old :: tail
      ∧ verifyWithSecrets (sign raw old) st.store = some raw) := by
  refine ⟨?_, ?_, ?_⟩
  · intro value s rest raw h
    unfold verifyWithSecrets
    rw [h]
  · intro value s rest h
    conv_lhs => unfold verifyWithSecrets
    rw [h]
  · intro raw old tail newKey st h
    unfold CookieSecretsStore.addSigning at h
    by_cases hl : newKey.length < 32
    · simp [hl] at h
    · simp only [hl, if_false, Except.ok.injEq] at h
      subst h
      refine ⟨rfl, ?_⟩
      exact verifyWithSecrets_sign_of_mem raw old _ (by simp)

/-- C1 witness: rotating from an old 32-character signing secret to a new
one keeps a cookie signed under the old secret verifiable. -/
theorem C1_verification_order_witness :
    verifyWithSecrets (sign "rawid" "oldsecretoldsecretoldsecretold32")
      (CookieSecretsStore.mk
        ["newsecretnewsecretnewsecretnew32", "oldsecretoldsecretoldsecretold32"]).store
      = some "rawid" :=
  (C1_verification_order.2.2 "rawid" "oldsecretoldsecretoldsecretold32" []
    "newsecretnewsecretnewsecretnew32" _ rfl).2

/-- C9 counterexample: the claim that `remove` on the secret at position 0
always fails is false when that secret also occurs at a later position.
Calling `addSigning` twice with the same valid key is accepted and yields
a store holding the key at positions 0 and 1; the key is then the signing
secret (`isSigning` is true), yet `remove` of it succeeds (it deletes the
last occurrence) instead of failing with an error. -/
theorem C9_signing_store_counterexample :
    CookieSecretsStore.addSigning ⟨["abcdefghabcdefghabcdefghabcdefgh"]⟩
        "abcdefghabcdefghabcdefghabcdefgh"
      = Except.ok ⟨["abcdefghabcdefghabcdefghabcdefgh",
          "abcdefghabcdefghabcdefghabcdefgh"]⟩
    ∧ CookieSecretsStore.isSigning
        ⟨["abcdefghabcdefghabcdefghabcdefgh",
          "abcdefghabcdefghabcdefghabcdefgh"]⟩
        "abcdefghabcdefghabcdefghabcdefgh" = true
    ∧ CookieSecretsStore.remove
        ⟨["abcdefghabcdefghabcdefghabcdefgh",
          "abcdefghabcdefghabcdefghabcdefgh"]⟩
        "abcdefghabcdefghabcdefghabcdefgh"
      = Except.ok ⟨["abcdefghabcdefghabcdefghabcdefgh"]⟩ :=
  ⟨rfl, by decide, rfl⟩

/-- C9 amended: `addSigning` with a valid key inserts it at position 0 and
demotes the previous signing secret to position 1, and `addUnsigning`
inserts at position 1 below the unchanged signing secret; `remove` of a
secret whose last occurrence is position 0 (a secret occurring only there,
in particular the signing secret of a duplicate-free store) fails with an
error, while `remove` of a secret that occurs among the tail positions
succeeds, deletes that last occurrence, and leaves the signing secret at
position 0 intact. -/
theorem C9_signing_store_invariants :
    (∀ st key, 32 ≤ key.length →
      CookieSecretsStore.addSigning st key = Except.ok ⟨key :: st.store⟩)
    ∧ (∀ h tail key, CookieSecretsStore.addUnsigning ⟨h :: tail⟩ key
        = ⟨h :: key :: tail⟩)
    ∧ (∀ h tail, h ∉ tail →
      CookieSecretsStore.remove ⟨h :: tail⟩ h
        = Except.error "Unable to remove the signing key. Add another one first")
    ∧ (∀ h tail key, key ∈ tail →
      ∃ i, lastIndexOfAux key tail = some i
        ∧ CookieSecretsStore.remove ⟨h :: tail⟩ key
            = Except.ok ⟨h :: tail.eraseIdx i⟩
        ∧ (tail.eraseIdx i).length + 1 = tail.length) := by
  refine ⟨?_, ?_, ?_, ?_⟩
  · intro st key hk
    unfold CookieSecretsStore.addSigning
    rw [if_neg (by omega)]
  · intro h tail key
    rfl
  · intro h tail hmem
    unfold CookieSecretsStore.remove
    have ht : lastIndexOfAux h tail = none := (lastIndexOfAux_eq_none_iff h tail).mpr hmem
    unfold lastIndexOfAux
    rw [ht]
    simp
  · intro h tail key hmem
    have ht : lastIndexOfAux key tail ≠ none := by
      intro hc
      exact ((lastIndexOfAux_eq_none_iff key tail).mp hc) hmem
    cases hx : lastIndexOfAux key tail with
    | none => exact absurd hx ht
    | some i =>
      refine ⟨i, rfl, ?_, ?_⟩
      · unfold CookieSecretsStore.remove
        unfold lastIndexOfAux
        rw [hx]
        rfl
      · exact length_eraseIdx_add_one tail i (lastIndexOfAux_lt_length key tail i hx)

/-- C9 witness: a store with signing secret at position 0 and a distinct
unsigning secret behind it; removing the unsigning secret succeeds and
keeps the signing secret in place, removing the signing secret fails. -/
theorem C9_signing_store_invariants_witness :
    CookieSecretsStore.addSigning ⟨["bbbbbbbbbbbbbbbbbbbbbbbbbbbbbbbb"]⟩
        "aaaaaaaaaaaaaaaaaaaaaaaaaaaaaaaa"
      = Except.ok ⟨["aaaaaaaaaaaaaaaaaaaaaaaaaaaaaaaa", "bbbbbbbbbbbbbbbbbbbbbbbbbbbbbbbb"]⟩
    ∧ CookieSecretsStore.remove
        ⟨["aaaaaaaaaaaaaaaaaaaaaaaaaaaaaaaa", "bbbbbbbbbbbbbbbbbbbbbbbbbbbbbbbb"]⟩
        "aaaaaaaaaaaaaaaaaaaaaaaaaaaaaaaa"
      = Except.error "Unable to remove the signing key. Add another one first"
    ∧ (∃ i, lastIndexOfAux "bbbbbbbbbbbbbbbbbbbbbbbbbbbbbbbb"
          ["bbbbbbbbbbbbbbbbbbbbbbbbbbbbbbbb"] = some i
        ∧ CookieSecretsStore.remove
            ⟨["aaaaaaaaaaaaaaaaaaaaaaaaaaaaaaaa", "bbbbbbbbbbbbbbbbbbbbbbbbbbbbbbbb"]⟩
            "bbbbbbbbbbbbbbbbbbbbbbbbbbbbbbbb"
          = Except.ok ⟨"aaaaaaaaaaaaaaaaaaaaaaaaaaaaaaaa"
              :: List.eraseIdx ["bbbbbbbbbbbbbbbbbbbbbbbbbbbbbbbb"] i⟩
        ∧ (List.eraseIdx ["bbbbbbbbbbbbbbbbbbbbbbbbbbbbbbbb"] i).length + 1
            = (["bbbbbbbbbbbbbbbbbbbbbbbbbbbbbbbb"] : List String).length) :=
  ⟨C9_signing_store_invariants.1 ⟨["bbbbbbbbbbbbbbbbbbbbbbbbbbbbbbbb"]⟩
      "aaaaaaaaaaaaaaaaaaaaaaaaaaaaaaaa" (by decide),
    C9_signing_store_invariants.2.2.1 "aaaaaaaaaaaaaaaaaaaaaaaaaaaaaaaa"
      ["bbbbbbbbbbbbbbbbbbbbbbbbbbbbbbbb"] (by decide),
    C9_signing_store_invariants.2.2.2 "aaaaaaaaaaaaaaaaaaaaaaaaaaaaaaaa"
      ["bbbbbbbbbbbbbbbbbbbbbbbbbbbbbbbb"] "bbbbbbbbbbbbbbbbbbbbbbbbbbbbbbbb"
      (by decide)⟩

/-- C2 counterexample: the claim that a failing store destroy leaves the
request's session attached unchanged is false. With a store destroy that
fails with an error, `destroySession` still sets the request's session to
null (its callback clears the session unconditionally before passing the
error on). -/
theorem C2_destroy_error_counterexample :
    (destroySession ⟨2, 3, 2⟩
        ⟨some "sid", "sid.mac", ["sessionId", "encryptedSessionId", "cookie", "expires"]⟩
        (some ⟨some "EIO"⟩)).doneArg = some ⟨some "EIO"⟩
    ∧ (destroySession ⟨2, 3, 2⟩
        ⟨some "sid", "sid.mac", ["sessionId", "encryptedSessionId", "cookie", "expires"]⟩
        (some ⟨some "EIO"⟩)).sessionAfter = none :=
  ⟨rfl, rfl⟩

/-- C2 amended: `destroySession` always calls the store's destroy with the
session's id and passes the store's result through to the caller's
completion unchanged (no argument on success, the error on failure), and
in both cases — success and failure alike — it sets the request's session
to null. -/
theorem C2_destroy_session (sig : StoreSig) (session : SessionObj)
    (destroyResult : Option JsError) :
    (destroySession sig session destroyResult).sessionAfter = none
    ∧ (destroySession sig session destroyResult).doneArg = destroyResult
    ∧ Ev.storeDestroy (decide (3 ≤ sig.destroyArity)) session.sessionId
        ∈ (destroySession sig session destroyResult).events :=
  ⟨rfl, rfl, by simp [destroySession]⟩

/-- C3 counterexample: the claim that the 2-versus-3-argument decision is
never re-inspected per call is false for the destroy method. A single
invocation of `destroySession` emits an inspection of the destroy method's
declared parameter count in its own event trace: the decision is taken
inside every call, not once at setup. -/
theorem C3_arity_reinspection_counterexample :
    (destroySession ⟨2, 3, 2⟩ ⟨some "sid", "sid.mac", []⟩ none).events
      = [Ev.inspect "destroy", Ev.storeDestroy false (some "sid")]
    ∧ Ev.inspect "destroy"
        ∈ (destroySession ⟨2, 3, 2⟩ ⟨some "sid", "sid.mac", []⟩ none).events :=
  ⟨rfl, by decide⟩

/-- C3 amended: the arities of `get` and `destroy` are inspected once when
the preValidation hook is created and the arity of `set` once when the
onSend hook is created; the per-request resolve and persist executions
never inspect an arity and every store call they make uses the variant
fixed by those setup-time flags. The `destroySession` operation, however,
re-inspects the destroy method's declared parameter count on every
invocation. -/
theorem C3_arity_negotiation :
    ((preValidationSetup ⟨2, 3, 2⟩).2 = [Ev.inspect "get", Ev.inspect "destroy"]
      ∧ (onSendSetup ⟨2, 3, 2⟩).2 = [Ev.inspect "set"])
    ∧ (∀ sig cookiePath secret request store now method,
      Ev.inspect method ∉ (resolvePhase sig cookiePath secret request store now).2)
    ∧ (∀ sig cookiePath secret request store now w id,
      Ev.storeGet w id ∈ (resolvePhase sig cookiePath secret request store now).2 →
        w = decide (3 ≤ sig.getArity))
    ∧ (∀ sig cookiePath secret request store now w id,
      Ev.storeDestroy w id ∈ (resolvePhase sig cookiePath secret request store now).2 →
        w = decide (3 ≤ sig.destroyArity))
    ∧ (∀ sig cookieName cookieSecure saveUninitialized request setResult method,
      Ev.inspect method
        ∉ (persistPhase sig cookieName cookieSecure saveUninitialized request setResult).events)
    ∧ (∀ sig cookieName cookieSecure saveUninitialized request setResult w id,
      Ev.storeSet w id
          ∈ (persistPhase sig cookieName cookieSecure saveUninitialized request setResult).events →
        w = decide (4 ≤ sig.setArity))
    ∧ (∀ sig session destroyResult,
      Ev.inspect "destroy" ∈ (destroySession sig session destroyResult).events) := by
  refine ⟨⟨rfl, rfl⟩, ?_, ?_, ?_, ?_, ?_, ?_⟩
  · intro sig cookiePath secret request store now method
    simp only [resolvePhase, preValidationSetup]
    rcases handleSession_events (decide (3 ≤ sig.getArity)) (decide (3 ≤ sig.destroyArity))
        cookiePath secret request store now with h | ⟨raw, h⟩ | ⟨raw, cv, h⟩ <;>
      simp [h]
  · intro sig cookiePath secret request store now w id
    simp only [resolvePhase, preValidationSetup]
    rcases handleSession_events (decide (3 ≤ sig.getArity)) (decide (3 ≤ sig.destroyArity))
        cookiePath secret request store now with h | ⟨raw, h⟩ | ⟨raw, cv, h⟩ <;>
      · intro hmem
        rw [h] at hmem
        simp_all
  · intro sig cookiePath secret request store now w id
    simp only [resolvePhase, preValidationSetup]
    rcases handleSession_events (decide (3 ≤ sig.getArity)) (decide (3 ≤ sig.destroyArity))
        cookiePath secret request store now with h | ⟨raw, h⟩ | ⟨raw, cv, h⟩ <;>
      · intro hmem
        rw [h] at hmem
        simp_all
  · intro sig cookieName cookieSecure saveUninitialized request setResult method
    unfold persistPhase saveSession
    split
    · simp
    · split
      · simp
      · split
        · simp
        · split <;> simp
  · intro sig cookieName cookieSecure saveUninitialized request setResult w id
    unfold persistPhase saveSession
    split
    · simp
    · split
      · simp
      · split
        · simp
        · split <;> simp_all [onSendSetup]
  · intro sig session destroyResult
    simp [destroySession]

/-- C3 witness: a concrete resolve-phase run with a store whose methods
declare the request-aware arities performs its get call with the variant
fixed at setup and never inspects an arity, while a concrete
`destroySession` call inspects the destroy arity itself. -/
theorem C3_arity_negotiation_witness :
    Ev.inspect "get" ∉ (resolvePhase ⟨3, 4, 3⟩ none "k"
        ⟨"/", some (sign "abc" "k")⟩ ⟨GetResult.notFound, none⟩ 0).2
    ∧ (true : Bool) = decide (3 ≤ (3 : Nat))
    ∧ Ev.inspect "destroy"
        ∈ (destroySession ⟨3, 4, 3⟩ ⟨some "sid", "sid.mac", []⟩ none).events :=
  ⟨C3_arity_negotiation.2.1 ⟨3, 4, 3⟩ none "k" ⟨"/", some (sign "abc" "k")⟩
      ⟨GetResult.notFound, none⟩ 0 "get",
    C3_arity_negotiation.2.2.1 ⟨3, 4, 3⟩ none "k" ⟨"/", some (sign "abc" "k")⟩
      ⟨GetResult.notFound, none⟩ 0 true "abc" (by decide),
    C3_arity_negotiation.2.2.2.2.2.2 ⟨3, 4, 3⟩ ⟨some "sid", "sid.mac", []⟩ none⟩

/-- C4: in the resolve phase, an absent (or empty, hence falsy) cookie, a
cookie whose signature does not verify, a store get failing with the
not-found code ENOENT, and a store get succeeding with no session are all
treated alike — the outcome is a fresh session and no error reaches
`done` — while a store get error with any other code is passed to `done`
and fails the request. -/
theorem C4_invalid_like_absent (gw dw : Bool) (cookiePath : Option String)
    (secret : String) (request : Request) (store : StoreBehavior) (now : Int)
    (hurl : listStartsWith request.url.data (effectivePath cookiePath).data = true) :
    (request.cookie = none →
      handleSession gw dw cookiePath secret request store now
        = (ResolveOutcome.fresh, []))
    ∧ (request.cookie = some "" →
      handleSession gw dw cookiePath secret request store now
        = (ResolveOutcome.fresh, []))
    ∧ (∀ cv, request.cookie = some cv → cv ≠ "" → unsign cv secret = none →
      handleSession gw dw cookiePath secret request store now
        = (ResolveOutcome.fresh, []))
    ∧ (∀ cv raw, request.cookie = some cv → cv ≠ "" → unsign cv secret = some raw →
      store.getResult = GetResult.error ⟨some "ENOENT"⟩ →
      handleSession gw dw cookiePath secret request store now
        = (ResolveOutcome.fresh, [Ev.storeGet gw raw]))
    ∧ (∀ cv raw, request.cookie = some cv → cv ≠ "" → unsign cv secret = some raw →
      store.getResult = GetResult.notFound →
      handleSession gw dw cookiePath secret request store now
        = (ResolveOutcome.fresh, [Ev.storeGet gw raw]))
    ∧ (∀ cv raw e, request.cookie = some cv → cv ≠ "" → unsign cv secret = some raw →
      store.getResult = GetResult.error e → e.code ≠ some "ENOENT" →
      handleSession gw dw cookiePath secret request store now
        = (ResolveOutcome.failed e, [Ev.storeGet gw raw])) := by
  refine ⟨?_, ?_, ?_, ?_, ?_, ?_⟩
  · intro hc
    unfold handleSession
    rw [if_neg (by simp [hurl]), hc]
  · intro hc
    unfold handleSession
    rw [if_neg (by simp [hurl]), hc]
    simp
  · intro cv hc hne hu
    unfold handleSession
    rw [if_neg (by simp [hurl]), hc]
    simp only [hne, if_neg hne, hu]
    simp
  · intro cv raw hc hne hu hg
    unfold handleSession
    rw [if_neg (by simp [hurl]), hc]
    simp only [if_neg hne, hu, hg]
    simp
  · intro cv raw hc hne hu hg
    unfold handleSession
    rw [if_neg (by simp [hurl]), hc]
    simp only [if_neg hne, hu, hg]
  · intro cv raw e hc hne hu hg hcode
    unfold handleSession
    rw [if_neg (by simp [hurl]), hc]
    simp only [if_neg hne, hu, hg]
    rw [if_neg hcode]

/-- C4 witness: with the root path scope, a validly signed cookie and a
store get that fails with the code EIO, the request fails with that
error, while the same request with a get that reports no session gets a
fresh session. -/
theorem C4_invalid_like_absent_witness :
    handleSession true true none "k" ⟨"/app", some (sign "abc" "k")⟩
        ⟨GetResult.error ⟨some "EIO"⟩, none⟩ 0
      = (ResolveOutcome.failed ⟨some "EIO"⟩, [Ev.storeGet true "abc"]) :=
  (C4_invalid_like_absent true true none "k" ⟨"/app", some (sign "abc" "k")⟩
      ⟨GetResult.error ⟨some "EIO"⟩, none⟩ 0 (by decide)).2.2.2.2.2
    (sign "abc" "k") "abc" ⟨some "EIO"⟩ rfl (by decide) (by decide) rfl (by decide)

/-- C5: the resolve phase never attaches an expired session — whenever it
ends with a session attached, that session is not expired at the current
time — and when the loaded session is expired it calls the store's destroy
(with the arity fixed at setup); a destroy error is passed to `done` and
fails the request, while a successful destroy leads to a fresh session
instead. -/
theorem C5_expired_session_replaced (gw dw : Bool) (cookiePath : Option String)
    (secret : String) (request : Request) (store : StoreBehavior) (now : Int) :
    (∀ s evs, handleSession gw dw cookiePath secret request store now
        = (ResolveOutcome.attached s, evs) → s.isExpired now = false)
    ∧ (∀ cv raw s,
      listStartsWith request.url.data (effectivePath cookiePath).data = true →
      request.cookie = some cv → cv ≠ "" → unsign cv secret = some raw →
      store.getResult = GetResult.found s → s.isExpired now = true →
      ((∀ e, store.destroyResult = some e →
        handleSession gw dw cookiePath secret request store now
          = (ResolveOutcome.failed e,
              [Ev.storeGet gw raw, Ev.storeDestroy dw (some cv)]))
      ∧ (store.destroyResult = none →
        handleSession gw dw cookiePath secret request store now
          = (ResolveOutcome.fresh,
              [Ev.storeGet gw raw, Ev.storeDestroy dw (some cv)])))) := by
  constructor
  · intro s evs h
    unfold handleSession at h
    split at h
    · cases h
    · split at h
      · cases h
      · split at h
        · cases h
        · split at h
          · cases h
          · split at h
            · split at h <;> cases h
            · cases h
            · split at h
              · unfold getDestroyCallback at h
                split at h <;> cases h
              · rename_i hexp
                cases h
                simpa using hexp
  · intro cv raw s hurl hc hne hu hg hexp
    constructor
    · intro e hd
      unfold handleSession
      rw [if_neg (by simp [hurl]), hc]
      simp only [if_neg hne, hu, hg, hexp, if_pos]
      rw [hd]
      rfl
    · intro hd
      unfold handleSession
      rw [if_neg (by simp [hurl]), hc]
      simp only [if_neg hne, hu, hg, hexp, if_pos]
      rw [hd]
      rfl

/-- C5 witness: a session that expired at time 5 is destroyed in the store
and replaced by a fresh session at time 10, and a session expiring at time
20 resolved at time 10 is attached and indeed not expired. -/
theorem C5_expired_session_replaced_witness :
    LoadedSession.isExpired ⟨some 20⟩ 10 = false
    ∧ handleSession true true none "k" ⟨"/", some (sign "abc" "k")⟩
        ⟨GetResult.found ⟨some 5⟩, none⟩ 10
      = (ResolveOutcome.fresh,
          [Ev.storeGet true "abc", Ev.storeDestroy true (some (sign "abc" "k"))]) :=
  ⟨(C5_expired_session_replaced true true none "k" ⟨"/", some (sign "abc" "k")⟩
      ⟨GetResult.found ⟨some 20⟩, none⟩ 10).1 ⟨some 20⟩ [Ev.storeGet true "abc"]
      (by decide),
    ((C5_expired_session_replaced true true none "k" ⟨"/", some (sign "abc" "k")⟩
        ⟨GetResult.found ⟨some 5⟩, none⟩ 10).2 (sign "abc" "k") "abc" ⟨some 5⟩
        (by decide) rfl (by decide) (by decide) rfl (by decide)).2 rfl⟩

/-- C6: with `saveUninitialized` disabled and a session object still in
its initial shape (exactly the negotiator's four bookkeeping keys), the
persist phase does nothing: the store's set is not called, no response
cookie is set, and `done` receives no error. -/
theorem C6_uninitialized_not_saved (setW : Bool) (cookieName : String)
    (cookieSecure : SecureSetting) (request : PersistRequest)
    (setResult : Option JsError) (session : SessionObj)
    (hs : request.session = some session)
    (hk : session.objectKeys = initialSessionKeys) :
    saveSession setW cookieName cookieSecure false request setResult = ⟨none, []⟩ := by
  unfold saveSession
  rw [hs]
  by_cases ht : truthyStr session.sessionId
  · have hss : shouldSaveSession session request.connection request.xForwardedProto
        cookieSecure false = false := by
      simp [shouldSaveSession, isSessionModified, hk, initialSessionKeys]
    simp [ht, hss]
  · simp [ht]

/-- C6 witness: a materialized but pristine session under disabled
`saveUninitialized` produces no store call and no cookie. -/
theorem C6_uninitialized_not_saved_witness :
    saveSession true "sessionId" SecureSetting.other false
      ⟨some ⟨some "sid", "sid.mac", initialSessionKeys⟩, none, none⟩ (none : Option JsError)
      = ⟨none, []⟩ :=
  C6_uninitialized_not_saved true "sessionId" SecureSetting.other
    ⟨some ⟨some "sid", "sid.mac", initialSessionKeys⟩, none, none⟩ none
    ⟨some "sid", "sid.mac", initialSessionKeys⟩ rfl rfl

/-- C7: when `cookie.secure` is strictly true, the connection is not
encrypted (absent connection, absent `encrypted`, or `encrypted` not
exactly true), and the `x-forwarded-proto` header is not exactly https,
the persist phase calls no store set and sets no cookie; and when `secure`
is anything other than strictly true, the secure check never blocks: the
save decision reduces to the `saveUninitialized`-or-modified gate alone. -/
theorem C7_secure_cookie_policy :
    (∀ setW cookieName saveUninitialized request setResult,
      connectionIsEncrypted request.connection = false →
      request.xForwardedProto ≠ some "https" →
      saveSession setW cookieName SecureSetting.strictTrue saveUninitialized
        request setResult = ⟨none, []⟩)
    ∧ (∀ session connection forwardedProto cookieSecure saveUninitialized,
      cookieSecure ≠ SecureSetting.strictTrue →
      shouldSaveSession session connection forwardedProto cookieSecure saveUninitialized
        = (saveUninitialized || isSessionModified session.objectKeys)) := by
  constructor
  · intro setW cookieName saveUninitialized request setResult hconn hproto
    unfold saveSession
    cases hs : request.session with
    | none => rfl
    | some session =>
      have hss : shouldSaveSession session request.connection request.xForwardedProto
          SecureSetting.strictTrue saveUninitialized = false := by
        unfold shouldSaveSession
        split
        · rfl
        · rw [if_neg (by simp), hconn]
          simp [hproto]
      by_cases ht : truthyStr session.sessionId
      · simp [ht, hss]
      · simp [ht]
  · intro session connection forwardedProto cookieSecure saveUninitialized hsec
    cases hu : saveUninitialized <;>
      cases hm : isSessionModified session.objectKeys <;>
        simp [shouldSaveSession, hsec, hm]

/-- C7 witness: a modified session with secure strictly required, an
unencrypted connection, and an http forwarded-proto header is not saved;
with secure not strictly true the decision equals the modified gate. -/
theorem C7_secure_cookie_policy_witness :
    saveSession true "sessionId" SecureSetting.strictTrue true
      ⟨some ⟨some "sid", "sid.mac", ["sessionId", "user"]⟩,
        some ⟨some false⟩, some "http"⟩ (none : Option JsError) = ⟨none, []⟩
    ∧ shouldSaveSession ⟨some "sid", "sid.mac", initialSessionKeys⟩ none none
        SecureSetting.other false = false :=
  ⟨C7_secure_cookie_policy.1 true "sessionId" true
      ⟨some ⟨some "sid", "sid.mac", ["sessionId", "user"]⟩,
        some ⟨some false⟩, some "http"⟩ none (by decide) (by decide),
    by
      rw [C7_secure_cookie_policy.2 ⟨some "sid", "sid.mac", initialSessionKeys⟩
        none none SecureSetting.other false (by decide)]
      decide⟩

/-- C8: when no session is attached to the request, or the attached
session's id is falsy (absent or empty, hence not yet materialized), the
persist phase performs nothing: no store set call, no cookie, and `done`
receives no error. -/
theorem C8_no_id_no_persist (setW : Bool) (cookieName : String)
    (cookieSecure : SecureSetting) (saveUninitialized : Bool)
    (request : PersistRequest) (setResult : Option JsError) :
    (request.session = none →
      saveSession setW cookieName cookieSecure saveUninitialized request setResult
        = ⟨none, []⟩)
    ∧ (∀ session, request.session = some session → truthyStr session.sessionId = false →
      saveSession setW cookieName cookieSecure saveUninitialized request setResult
        = ⟨none, []⟩) := by
  constructor
  · intro h
    unfold saveSession
    rw [h]
  · intro session h ht
    unfold saveSession
    rw [h]
    simp [ht]

/-- C8 witness: a request with no attached session and a request whose
session has no id both produce no store call and no cookie. -/
theorem C8_no_id_no_persist_witness :
    saveSession true "sessionId" SecureSetting.other true
      ⟨none, none, none⟩ (none : Option JsError) = ⟨none, []⟩
    ∧ saveSession true "sessionId" SecureSetting.other true
      ⟨some ⟨none, "sid.mac", ["sessionId", "user"]⟩, none, none⟩
      (none : Option JsError) = ⟨none, []⟩ :=
  ⟨(C8_no_id_no_persist true "sessionId" SecureSetting.other true
      ⟨none, none, none⟩ none).1 rfl,
    (C8_no_id_no_persist true "sessionId" SecureSetting.other true
      ⟨some ⟨none, "sid.mac", ["sessionId", "user"]⟩, none, none⟩ none).2
      ⟨none, "sid.mac", ["sessionId", "user"]⟩ rfl rfl⟩

/-- C10: the modified-session decision looks only at the number of object
keys: sessions with equally many keys are classified alike, any session
with exactly 4 keys counts as unmodified whatever its keys are, any other
key count counts as modified, and a 4-key session under disabled
`saveUninitialized` and a not-strictly-true secure setting is skipped by
the persist phase. -/
theorem C10_modified_is_key_count :
    (∀ k1 k2 : List String, k1.length = k2.length →
      isSessionModified k1 = isSessionModified k2)
    ∧ (∀ sessionKeys : List String, sessionKeys.length = 4 →
      isSessionModified sessionKeys = false)
    ∧ (∀ sessionKeys : List String, sessionKeys.length ≠ 4 →
      isSessionModified sessionKeys = true)
    ∧ (∀ setW cookieName request setResult session,
      request.session = some session → session.objectKeys.length = 4 →
      saveSession setW cookieName SecureSetting.other false request setResult
        = ⟨none, []⟩) := by
  refine ⟨?_, ?_, ?_, ?_⟩
  · intro k1 k2 h
    simp [isSessionModified, h]
  · intro sessionKeys h
    simp [isSessionModified, h]
  · intro sessionKeys h
    simp [isSessionModified, h]
  · intro setW cookieName request setResult session hs hk
    unfold saveSession
    rw [hs]
    by_cases ht : truthyStr session.sessionId
    · have hss : shouldSaveSession session request.connection request.xForwardedProto
          SecureSetting.other false = false := by
        simp [shouldSaveSession, isSessionModified, hk]
      simp [ht, hss]
    · simp [ht]

/-- C10 witness: four arbitrary keys count as unmodified and are skipped
under disabled `saveUninitialized`; five keys count as modified. -/
theorem C10_modified_is_key_count_witness :
    isSessionModified ["a", "b", "c", "d"] = false
    ∧ isSessionModified ["sessionId", "encryptedSessionId", "cookie", "expires", "user"]
        = true
    ∧ saveSession true "sessionId" SecureSetting.other false
      ⟨some ⟨some "sid", "sid.mac", ["a", "b", "c", "d"]⟩, none, none⟩
      (none : Option JsError) = ⟨none, []⟩ :=
  ⟨C10_modified_is_key_count.2.1 ["a", "b", "c", "d"] rfl,
    C10_modified_is_key_count.2.2.1
      ["sessionId", "encryptedSessionId", "cookie", "expires", "user"] (by decide),
    C10_modified_is_key_count.2.2.2 true "sessionId"
      ⟨some ⟨some "sid", "sid.mac", ["a", "b", "c", "d"]⟩, none, none⟩ none
      ⟨some "sid", "sid.mac", ["a", "b", "c", "d"]⟩ rfl rfl⟩
